import Mathlib

/-!
Shallow embedding of the KernelSU `ksud` userspace CLI dispatcher
(`userspace/ksud/src/cli.rs`) and the embedded-asset extractor
(`userspace/ksud/src/assets.rs`), together with theorems about the
dispatch behaviour.

Collaborator modules (`module`, `init_event`, `sepolicy`, `profile`,
`debug`, `su`, `apk_sign`, `utils`, `ksucalls`) are out of scope of the
source excerpt; they are abstracted as an environment of fallible
functions (`Env`).  `run` is embedded as a pure function from the
environment, `argv[0]`, the parsed arguments and the existence of the
verbose-log marker file to the list of collaborator calls and logging
actions it performs (in order) paired with its `anyhow::Result<()>`
return value.  `anyhow::Error` is abstracted as a string.  The embedding
models the `linux`/`android` build, where the `cfg`-gated
mount-namespace block in the `Module` arm is compiled in.
-/

namespace Ksud

/-- The `anyhow::Error` type, abstracted as its display string. -/
abbrev Err := String

namespace cli

/-- The `Module` subcommand enum (cli.rs lines 112-146). -/
inductive Module where
  | Install (zip : String)
  | Uninstall (id : String)
  | Enable (id : String)
  | Disable (id : String)
  | Action (id : String)
  | List
  deriving DecidableEq

/-- The `Sepolicy` subcommand enum (cli.rs lines 91-110). -/
inductive Sepolicy where
  | Patch (sepolicy : String)
  | Apply (file : String)
  | Check (sepolicy : String)
  deriving DecidableEq

/-- The `Profile` subcommand enum (cli.rs lines 148-186). -/
inductive Profile where
  | GetSepolicy (package : String)
  | SetSepolicy (package : String) (policy : String)
  | GetTemplate (id : String)
  | SetTemplate (id : String) (template : String)
  | DeleteTemplate (id : String)
  | ListTemplates
  deriving DecidableEq

/-- The `Debug` subcommand enum (cli.rs lines 60-89). -/
inductive Debug where
  | SetManager (apk : String)
  | GetSign (apk : String)
  | Su (global_mnt : Bool)
  | Version
  | Mount
  | Test
  deriving DecidableEq

/-- The top-level `Commands` enum (cli.rs lines 24-58). -/
inductive Commands where
  | Module (command : Module)
  | PostFsData
  | Services
  | BootCompleted
  | Sepolicy (command : Sepolicy)
  | Profile (command : Profile)
  | Debug (command : Debug)
  deriving DecidableEq

/-- The parsed `Args` struct (cli.rs lines 14-22). -/
structure Args where
  command : Commands
  verbose : Bool
  deriving DecidableEq

/-- clap semantics of `#[arg(short, long, default_value_t = cfg!(debug_assertions))]
verbose: bool` (cli.rs lines 20-21): the parsed value of `verbose` is the
flag when given on the command line, else `cfg!(debug_assertions)`. -/
def parsedVerbose (given : Option Bool) (debug_assertions : Bool) : Bool :=
  given.getD debug_assertions

/-- One observable action performed by `run`: a call into a collaborator
module, a `println!`, or a logging action. -/
inductive Event where
  | switchMntNs (pid : Nat)
  | unshareMntNs
  | installModule (zip : String)
  | uninstallModule (id : String)
  | enableModule (id : String)
  | disableModule (id : String)
  | runAction (id : String)
  | listModules
  | onPostDataFs
  | onServices
  | onBootCompleted
  | livePatch (sepolicy : String)
  | applyFile (file : String)
  | checkRule (sepolicy : String)
  | getSepolicy (package : String)
  | setSepolicy (package : String) (policy : String)
  | getTemplate (id : String)
  | setTemplate (id : String) (template : String)
  | deleteTemplate (id : String)
  | listTemplates
  | setManager (apk : String)
  | getApkSignature (apk : String)
  | printSignature (size : Nat) (hash : String)
  | printVersion (version : Int)
  | grantRoot (global_mnt : Bool)
  | mountModulesSystemlessly
  | ensureBinariesCall (ignore_if_exist : Bool)
  | rootShell
  | setMaxLevelInfo
  | logInfoCommand (command : Commands)
  | logError (e : Err)
  deriving DecidableEq

/-- Results returned by the abstracted collaborator modules that `run`
dispatches into. -/
structure Env where
  switch_mnt_ns : Nat → Except Err Unit
  unshare_mnt_ns : Except Err Unit
  install_module : String → Except Err Unit
  uninstall_module : String → Except Err Unit
  enable_module : String → Except Err Unit
  disable_module : String → Except Err Unit
  run_action : String → Except Err Unit
  list_modules : Except Err Unit
  on_post_data_fs : Except Err Unit
  on_services : Except Err Unit
  on_boot_completed : Except Err Unit
  live_patch : String → Except Err Unit
  apply_file : String → Except Err Unit
  check_rule : String → Except Err Unit
  get_sepolicy : String → Except Err Unit
  set_sepolicy : String → String → Except Err Unit
  get_template : String → Except Err Unit
  set_template : String → String → Except Err Unit
  delete_template : String → Except Err Unit
  list_templates : Except Err Unit
  set_manager : String → Except Err Unit
  get_apk_signature : String → Except Err (Nat × String)
  get_version : Int
  grant_root : Bool → Except Err Unit
  mount_modules_systemlessly : Except Err Unit
  ensure_binaries : Bool → Except Err Unit
  root_shell : Except Err Unit

/-- How the big `match cli.command` block terminates: `early e` when a `?`
operator inside an arm propagated an error straight out of `run` (so the
`result` binding is never assigned), `done r` when the arm's value flows
into the `result` binding at cli.rs line 213. -/
inductive Dispatched where
  | early (e : Err)
  | done (r : Except Err Unit)

/-- The inner `match command` of the `Module` arm (cli.rs lines 223-230). -/
def dispatchModuleCmd (env : Env) : Module → Event × Except Err Unit
  | .Install zip => (.installModule zip, env.install_module zip)
  | .Uninstall id => (.uninstallModule id, env.uninstall_module id)
  | .Enable id => (.enableModule id, env.enable_module id)
  | .Disable id => (.disableModule id, env.disable_module id)
  | .Action id => (.runAction id, env.run_action id)
  | .List => (.listModules, env.list_modules)

/-- The `Sepolicy` arm (cli.rs lines 233-237). -/
def dispatchSepolicy (env : Env) : Sepolicy → Event × Except Err Unit
  | .Patch sepolicy => (.livePatch sepolicy, env.live_patch sepolicy)
  | .Apply file => (.applyFile file, env.apply_file file)
  | .Check sepolicy => (.checkRule sepolicy, env.check_rule sepolicy)

/-- The `Profile` arm (cli.rs lines 240-249). -/
def dispatchProfile (env : Env) : Profile → Event × Except Err Unit
  | .GetSepolicy package => (.getSepolicy package, env.get_sepolicy package)
  | .SetSepolicy package policy =>
    (.setSepolicy package policy, env.set_sepolicy package policy)
  | .GetTemplate id => (.getTemplate id, env.get_template id)
  | .SetTemplate id template => (.setTemplate id template, env.set_template id template)
  | .DeleteTemplate id => (.deleteTemplate id, env.delete_template id)
  | .ListTemplates => (.listTemplates, env.list_templates)

/-- The `match cli.command` block of `run` (cli.rs lines 213-266), as the
ordered list of collaborator calls it performs and its termination mode.
In the `Module` arm, `switch_mnt_ns(1)?` and `unshare_mnt_ns()?` run first
and an error there propagates out of `run` via `?` (`Dispatched.early`).
In `Debug::GetSign`, `get_apk_signature(&apk)?` likewise propagates via
`?`; on success both components of the returned pair are printed. -/
def runDispatch (env : Env) : Commands → List Event × Dispatched
  | .PostFsData => ([.onPostDataFs], .done env.on_post_data_fs)
  | .BootCompleted => ([.onBootCompleted], .done env.on_boot_completed)
  | .Module command =>
    match env.switch_mnt_ns 1 with
    | .error e => ([.switchMntNs 1], .early e)
    | .ok _ =>
      match env.unshare_mnt_ns with
      | .error e => ([.switchMntNs 1, .unshareMntNs], .early e)
      | .ok _ =>
        let p := dispatchModuleCmd env command
        ([.switchMntNs 1, .unshareMntNs, p.1], .done p.2)
  | .Sepolicy command =>
    let p := dispatchSepolicy env command
    ([p.1], .done p.2)
  | .Services => ([.onServices], .done env.on_services)
  | .Profile command =>
    let p := dispatchProfile env command
    ([p.1], .done p.2)
  | .Debug command =>
    match command with
    | .SetManager apk => ([.setManager apk], .done (env.set_manager apk))
    | .GetSign apk =>
      match env.get_apk_signature apk with
      | .error e => ([.getApkSignature apk], .early e)
      | .ok sign =>
        ([.getApkSignature apk, .printSignature sign.1 sign.2], .done (.ok ()))
    | .Version => ([.printVersion env.get_version], .done (.ok ()))
    | .Su global_mnt => ([.grantRoot global_mnt], .done (env.grant_root global_mnt))
    | .Mount => ([.mountModulesSystemlessly], .done env.mount_modules_systemlessly)
    | .Test => ([.ensureBinariesCall false], .done (env.ensure_binaries false))

/-- The `argv[0]` test of cli.rs line 201. -/
def isSuArg0 (arg0 : String) : Bool :=
  arg0 == "su" || arg0 == "/system/bin/su"

/-- Actions `run` performs between `Args::parse()` and the dispatch: the
conditional `log::set_max_level(LevelFilter::Info)` (cli.rs lines 207-209)
and the `log::info!("command: ...")` (line 211).  `verbose_marker` is
whether `KSUD_VERBOSE_LOG_FILE` exists. -/
def preEvents (cli : Args) (verbose_marker : Bool) : List Event :=
  (if !cli.verbose && !verbose_marker then [Event.setMaxLevelInfo] else []) ++
    [Event.logInfoCommand cli.command]

/-- The entry point `run` (cli.rs lines 188-272).  `arg0` is `argv[0]`; when it is the
reserved shell name, `su::root_shell()` is returned immediately (line 202)
and `cli`/`verbose_marker` are never consulted.  Otherwise the command is
dispatched; an error that reached the `result` binding is logged with
`log::error!` (lines 268-270) before being returned, while a `?`-propagated
error is returned directly. -/
def run (env : Env) (arg0 : String) (cli : Args) (verbose_marker : Bool) :
    List Event × Except Err Unit :=
  if isSuArg0 arg0 then
    ([Event.rootShell], env.root_shell)
  else
    match runDispatch env cli.command with
    | (tr, .early e) => (preEvents cli verbose_marker ++ tr, .error e)
    | (tr, .done (.error e)) =>
      (preEvents cli verbose_marker ++ tr ++ [Event.logError e], .error e)
    | (tr, .done (.ok _)) => (preEvents cli verbose_marker ++ tr, .ok ())

/-- Is this event one of the six module-registry operations? -/
def Event.isModuleOp : Event → Bool
  | .installModule _ => true
  | .uninstallModule _ => true
  | .enableModule _ => true
  | .disableModule _ => true
  | .runAction _ => true
  | .listModules => true
  | _ => false

/-- Is this event a mount-namespace operation? -/
def Event.isMntNsOp : Event → Bool
  | .switchMntNs _ => true
  | .unshareMntNs => true
  | _ => false

/-- Is this event an error-log action? -/
def Event.isLogError : Event → Bool
  | .logError _ => true
  | _ => false

/-- Events emitted by `run` itself rather than by the dispatch block:
the log-level cap, the command info log and the error log. -/
def Event.isHousekeeping : Event → Bool
  | .setMaxLevelInfo => true
  | .logInfoCommand _ => true
  | .logError _ => true
  | _ => false

/-- Is this a `Module` subcommand? -/
def Commands.isModuleCmd : Commands → Bool
  | .Module _ => true
  | _ => false

/-- A trace contains no error-log action. -/
def noLogError (tr : List Event) : Bool :=
  tr.all (fun ev => !ev.isLogError)

/-- A trace contains no module-registry operation. -/
def noModuleOp (tr : List Event) : Bool :=
  tr.all (fun ev => !ev.isModuleOp)

/-- A trace contains no mount-namespace operation. -/
def noMntNsOp (tr : List Event) : Bool :=
  tr.all (fun ev => !ev.isMntNsOp)

/-- A sample environment in which every collaborator call succeeds. -/
def okEnv : Env where
  switch_mnt_ns := fun _ => .ok ()
  unshare_mnt_ns := .ok ()
  install_module := fun _ => .ok ()
  uninstall_module := fun _ => .ok ()
  enable_module := fun _ => .ok ()
  disable_module := fun _ => .ok ()
  run_action := fun _ => .ok ()
  list_modules := .ok ()
  on_post_data_fs := .ok ()
  on_services := .ok ()
  on_boot_completed := .ok ()
  live_patch := fun _ => .ok ()
  apply_file := fun _ => .ok ()
  check_rule := fun _ => .ok ()
  get_sepolicy := fun _ => .ok ()
  set_sepolicy := fun _ _ => .ok ()
  get_template := fun _ => .ok ()
  set_template := fun _ _ => .ok ()
  delete_template := fun _ => .ok ()
  list_templates := .ok ()
  set_manager := fun _ => .ok ()
  get_apk_signature := fun _ => .ok (256, "deadbeef")
  get_version := 1
  grant_root := fun _ => .ok ()
  mount_modules_systemlessly := .ok ()
  ensure_binaries := fun _ => .ok ()
  root_shell := .ok ()

/-- Environment in which `apk_sign::get_apk_signature` fails. -/
def sigFailEnv : Env :=
  { okEnv with get_apk_signature := fun _ => .error "sig" }

/-- Environment in which `utils::switch_mnt_ns` fails. -/
def nsFailEnv : Env :=
  { okEnv with switch_mnt_ns := fun _ => .error "ns" }

/-- Environment in which `utils::unshare_mnt_ns` fails. -/
def unshareFailEnv : Env :=
  { okEnv with unshare_mnt_ns := .error "unshare" }

/-- Environment in which `init_event::on_post_data_fs` fails. -/
def pfdFailEnv : Env :=
  { okEnv with on_post_data_fs := .error "boom" }

end cli

namespace assets

/-- Abstraction of the collaborators of `assets.rs::ensure_binaries`:
`Asset::get` (embedded asset lookup, `Data` is the asset byte content),
`utils::ensure_binary`, and the `BINARY_DIR` constant from `defs`. -/
structure AssetsEnv (Data : Type) where
  get : String → Option Data
  ensure_binary : String → Data → Bool → Except Err Unit
  binary_dir : String

/-- Rust `str::ends_with(post)`: `post` is a suffix of `s`, modelled on
the character list (equivalent to the byte-suffix test on valid UTF-8). -/
def strEndsWith (s post : String) : Bool :=
  List.isSuffixOf post.data s.data

/-- The skip test of assets.rs line 24: `file == "ksuinit" || file.ends_with(".ko")`. -/
def skipAsset (file : String) : Bool :=
  file == "ksuinit" || strEndsWith file ".ko"

/-- The extractor `ensure_binaries` (assets.rs lines 22-32), with `Asset::iter()` given
as the list `files`.  Returns the list of files for which
`utils::ensure_binary` was invoked (in order) and the `Result`.  A missing
asset aborts via `ok_or(...)?` before `ensure_binary` is called for it; an
`ensure_binary` error aborts via `?` after that call. -/
def ensure_binaries {Data : Type} (env : AssetsEnv Data) (ignore_if_exist : Bool) :
    List String → List String × Except Err Unit
  | [] => ([], .ok ())
  | file :: rest =>
    if skipAsset file then ensure_binaries env ignore_if_exist rest
    else
      match env.get file with
      | none => ([], .error ("asset not found: " ++ file))
      | some asset =>
        match env.ensure_binary (env.binary_dir ++ file) asset ignore_if_exist with
        | .error e => ([file], .error e)
        | .ok _ =>
          let p := ensure_binaries env ignore_if_exist rest
          (file :: p.1, p.2)

/-- A non-skipped asset is processed without aborting: it is present and
`ensure_binary` succeeds on it. -/
def assetOk {Data : Type} (env : AssetsEnv Data) (ignore : Bool) (file : String) : Bool :=
  match env.get file with
  | none => false
  | some asset =>
    match env.ensure_binary (env.binary_dir ++ file) asset ignore with
    | .ok _ => true
    | .error _ => false

/-- The error with which processing of a failing asset aborts. -/
def assetErr {Data : Type} (env : AssetsEnv Data) (ignore : Bool) (file : String) : Err :=
  match env.get file with
  | none => "asset not found: " ++ file
  | some asset =>
    match env.ensure_binary (env.binary_dir ++ file) asset ignore with
    | .ok _ => ""
    | .error e => e

/-- The `ensure_binary` calls made while processing one asset: none when
the asset is missing (the `ok_or(...)?` fires first), one otherwise. -/
def assetCalled {Data : Type} (env : AssetsEnv Data) (file : String) : List String :=
  match env.get file with
  | none => []
  | some _ => [file]

/-- A sample asset environment: `busybox` and `resetprop` are present and
extract fine, `magiskpolicy` is present but fails to extract, and
`missing` is declared but absent. -/
def sampleAssets : AssetsEnv String where
  get := fun file => if file == "missing" then none else some ("data:" ++ file)
  ensure_binary := fun path _ _ =>
    if path == "/bin/magiskpolicy" then .error "extract" else .ok ()
  binary_dir := "/bin/"

end assets

namespace cli

theorem dispatchModuleCmd_isModuleOp (env : Env) (c : Module) :
    (dispatchModuleCmd env c).1.isModuleOp = true := by
  cases c <;> rfl

theorem runDispatch_no_housekeeping (env : Env) (cmd : Commands) :
    ∀ ev ∈ (runDispatch env cmd).1, ev.isHousekeeping = false := by
  intro ev hev
  cases cmd with
  | Module c =>
    cases hsw : env.switch_mnt_ns 1 with
    | error e =>
      simp [runDispatch, hsw] at hev
      subst hev; rfl
    | ok u =>
      cases hun : env.unshare_mnt_ns with
      | error e =>
        simp [runDispatch, hsw, hun] at hev
        rcases hev with h | h <;> subst h <;> rfl
      | ok v =>
        simp [runDispatch, hsw, hun] at hev
        rcases hev with h | h | h <;> subst h
        · rfl
        · rfl
        · cases c <;> rfl
  | PostFsData =>
    simp [runDispatch] at hev
    subst hev; rfl
  | Services =>
    simp [runDispatch] at hev
    subst hev; rfl
  | BootCompleted =>
    simp [runDispatch] at hev
    subst hev; rfl
  | Sepolicy c =>
    simp [runDispatch] at hev
    subst hev; cases c <;> rfl
  | Profile c =>
    simp [runDispatch] at hev
    subst hev; cases c <;> rfl
  | Debug c =>
    cases c with
    | GetSign apk =>
      cases hs : env.get_apk_signature apk with
      | error e =>
        simp [runDispatch, hs] at hev
        subst hev; rfl
      | ok sign =>
        simp [runDispatch, hs] at hev
        rcases hev with h | h <;> subst h <;> rfl
    | SetManager apk =>
      simp [runDispatch] at hev
      subst hev; rfl
    | Su g =>
      simp [runDispatch] at hev
      subst hev; rfl
    | Version =>
      simp [runDispatch] at hev
      subst hev; rfl
    | Mount =>
      simp [runDispatch] at hev
      subst hev; rfl
    | Test =>
      simp [runDispatch] at hev
      subst hev; rfl

theorem preEvents_mem (cli : Args) (verbose_marker : Bool) :
    ∀ ev ∈ preEvents cli verbose_marker,
      ev = Event.setMaxLevelInfo ∨ ev = Event.logInfoCommand cli.command := by
  intro ev hev
  cases hc : (!cli.verbose && !verbose_marker) <;> simp [preEvents, hc] at hev
  · exact Or.inr hev
  · rcases hev with h | h
    · exact Or.inl h
    · exact Or.inr h

theorem runDispatch_no_mntNs_of_not_module (env : Env) (cmd : Commands)
    (h : cmd.isModuleCmd = false) :
    ∀ ev ∈ (runDispatch env cmd).1, ev.isMntNsOp = false := by
  intro ev hev
  cases cmd with
  | Module c => simp [Commands.isModuleCmd] at h
  | PostFsData =>
    simp [runDispatch] at hev
    subst hev; rfl
  | Services =>
    simp [runDispatch] at hev
    subst hev; rfl
  | BootCompleted =>
    simp [runDispatch] at hev
    subst hev; rfl
  | Sepolicy c =>
    simp [runDispatch] at hev
    subst hev; cases c <;> rfl
  | Profile c =>
    simp [runDispatch] at hev
    subst hev; cases c <;> rfl
  | Debug c =>
    cases c with
    | GetSign apk =>
      cases hs : env.get_apk_signature apk with
      | error e =>
        simp [runDispatch, hs] at hev
        subst hev; rfl
      | ok sign =>
        simp [runDispatch, hs] at hev
        rcases hev with h2 | h2 <;> subst h2 <;> rfl
    | SetManager apk =>
      simp [runDispatch] at hev
      subst hev; rfl
    | Su g =>
      simp [runDispatch] at hev
      subst hev; rfl
    | Version =>
      simp [runDispatch] at hev
      subst hev; rfl
    | Mount =>
      simp [runDispatch] at hev
      subst hev; rfl
    | Test =>
      simp [runDispatch] at hev
      subst hev; rfl

theorem isLogError_eq_false_of_not_housekeeping (ev : Event)
    (h : ev.isHousekeeping = false) : ev.isLogError = false := by
  cases ev <;> simp_all [Event.isHousekeeping, Event.isLogError]

/-- C1: for every `Module` subcommand the dispatcher first calls
`switch_mnt_ns(1)`, then `unshare_mnt_ns`, in that order, before any
module operation; the unshare is never performed before the switch.  The
dispatch trace is exactly one of: the switch alone (it failed), switch
then unshare (the unshare failed), or switch, unshare, then a single
module operation. -/
theorem c1_module_ns_order (env : Env) (c : Module) :
    (runDispatch env (Commands.Module c)).1 = [Event.switchMntNs 1] ∨
    (runDispatch env (Commands.Module c)).1 =
      [Event.switchMntNs 1, Event.unshareMntNs] ∨
    ∃ ev : Event, ev.isModuleOp = true ∧
      (runDispatch env (Commands.Module c)).1 =
        [Event.switchMntNs 1, Event.unshareMntNs, ev] := by
  cases hsw : env.switch_mnt_ns 1 with
  | error e => exact Or.inl (by simp [runDispatch, hsw])
  | ok u =>
    cases hun : env.unshare_mnt_ns with
    | error e => exact Or.inr (Or.inl (by simp [runDispatch, hsw, hun]))
    | ok v =>
      exact Or.inr (Or.inr ⟨(dispatchModuleCmd env c).1,
        dispatchModuleCmd_isModuleOp env c, by simp [runDispatch, hsw, hun]⟩)

/-- C2: when `argv[0]` is `"su"` or `"/system/bin/su"`, `run` immediately
returns `su::root_shell()`'s result; the trace is exactly the
`root_shell` call (no argument parsing effects, no dispatch, no
mount-namespace operation) and the output does not depend on `cli` or on
the verbose-marker file at all. -/
theorem c2_su_root_shell (env : Env) (arg0 : String) (cli : Args)
    (verbose_marker : Bool) (h : arg0 = "su" ∨ arg0 = "/system/bin/su") :
    run env arg0 cli verbose_marker = ([Event.rootShell], env.root_shell) := by
  rcases h with h | h <;> subst h <;> rfl

theorem c2_su_root_shell_witness :
    run okEnv "su" ⟨Commands.PostFsData, true⟩ false =
      ([Event.rootShell], okEnv.root_shell) :=
  c2_su_root_shell okEnv "su" ⟨Commands.PostFsData, true⟩ false (Or.inl rfl)

/-- C5: the three boot checkpoint subcommands dispatch one-to-one onto
the three boot entry points — `PostFsData` invokes only
`on_post_data_fs`, `Services` only `on_services`, `BootCompleted` only
`on_boot_completed` — and `run` returns each entry point's result
unchanged. -/
theorem c5_boot_checkpoints (env : Env) (arg0 : String)
    (v verbose_marker : Bool) (h0 : isSuArg0 arg0 = false) :
    (runDispatch env Commands.PostFsData).1 = [Event.onPostDataFs] ∧
    (runDispatch env Commands.Services).1 = [Event.onServices] ∧
    (runDispatch env Commands.BootCompleted).1 = [Event.onBootCompleted] ∧
    (run env arg0 ⟨Commands.PostFsData, v⟩ verbose_marker).2 = env.on_post_data_fs ∧
    (run env arg0 ⟨Commands.Services, v⟩ verbose_marker).2 = env.on_services ∧
    (run env arg0 ⟨Commands.BootCompleted, v⟩ verbose_marker).2 =
      env.on_boot_completed := by
  refine ⟨rfl, rfl, rfl, ?_, ?_, ?_⟩
  · cases hp : env.on_post_data_fs with
    | error e => simp [run, h0, runDispatch, hp]
    | ok u => cases u; simp [run, h0, runDispatch, hp]
  · cases hp : env.on_services with
    | error e => simp [run, h0, runDispatch, hp]
    | ok u => cases u; simp [run, h0, runDispatch, hp]
  · cases hp : env.on_boot_completed with
    | error e => simp [run, h0, runDispatch, hp]
    | ok u => cases u; simp [run, h0, runDispatch, hp]

theorem c5_boot_checkpoints_witness :
    (runDispatch okEnv Commands.PostFsData).1 = [Event.onPostDataFs] ∧
    (runDispatch okEnv Commands.Services).1 = [Event.onServices] ∧
    (runDispatch okEnv Commands.BootCompleted).1 = [Event.onBootCompleted] ∧
    (run okEnv "ksud" ⟨Commands.PostFsData, true⟩ false).2 = okEnv.on_post_data_fs ∧
    (run okEnv "ksud" ⟨Commands.Services, true⟩ false).2 = okEnv.on_services ∧
    (run okEnv "ksud" ⟨Commands.BootCompleted, true⟩ false).2 =
      okEnv.on_boot_completed :=
  c5_boot_checkpoints okEnv "ksud" true false rfl

/-- C6: the sepolicy `Check` subcommand invokes only `check_rule`,
`Patch` invokes only `live_patch` on the inline statement string, and
`Apply` invokes only `apply_file` on the given path: each dispatch trace
is exactly the one corresponding call, whose result becomes `result`. -/
theorem c6_sepolicy_dispatch (env : Env) (s f p : String) :
    runDispatch env (Commands.Sepolicy (Sepolicy.Check s)) =
      ([Event.checkRule s], Dispatched.done (env.check_rule s)) ∧
    runDispatch env (Commands.Sepolicy (Sepolicy.Patch p)) =
      ([Event.livePatch p], Dispatched.done (env.live_patch p)) ∧
    runDispatch env (Commands.Sepolicy (Sepolicy.Apply f)) =
      ([Event.applyFile f], Dispatched.done (env.apply_file f)) :=
  ⟨rfl, rfl, rfl⟩

/-- C7: `Debug::GetSign` obtains from `get_apk_signature` a pair of
package size and digest and reports both together in a single print (the
`printSignature` event carries size and hash jointly, never the size
alone). -/
theorem c7_get_sign_reports_pair (env : Env) (apk : String) (size : Nat)
    (hash : String) (h : env.get_apk_signature apk = .ok (size, hash)) :
    runDispatch env (Commands.Debug (Debug.GetSign apk)) =
      ([Event.getApkSignature apk, Event.printSignature size hash],
        Dispatched.done (.ok ())) := by
  simp [runDispatch, h]

theorem c7_get_sign_reports_pair_witness :
    runDispatch okEnv (Commands.Debug (Debug.GetSign "m.apk")) =
      ([Event.getApkSignature "m.apk", Event.printSignature 256 "deadbeef"],
        Dispatched.done (.ok ())) :=
  c7_get_sign_reports_pair okEnv "m.apk" 256 "deadbeef" rfl

/-- C3 counterexample: the claim "no command's failure path returns from
`run()` without the error being logged" is false.  For `Debug::GetSign`
with a failing `get_apk_signature`, the `?` at cli.rs line 254 returns the
error from `run` before the `if let Err` logging at lines 268-270 is
reached: `run` returns the error yet its trace contains no error-log
action. -/
theorem c3_unlogged_failure_counterexample :
    (run sigFailEnv "ksud" ⟨Commands.Debug (Debug.GetSign "m.apk"), true⟩
        false).2 = .error "sig" ∧
    noLogError (run sigFailEnv "ksud" ⟨Commands.Debug (Debug.GetSign "m.apk"), true⟩
        false).1 = true := by
  constructor <;> rfl

/-- C3 amended: an error that reaches the `result` binding (cli.rs line
213) is logged by `log::error!` as the final action before `run` returns
it; but an error propagated by a `?` operator inside an arm
(mount-namespace setup in the `Module` arm, `get_apk_signature` in
`Debug::GetSign`) is returned from `run` with no error log at all. -/
theorem c3_error_logging (env : Env) (arg0 : String) (cli : Args)
    (verbose_marker : Bool) (h0 : isSuArg0 arg0 = false) :
    (∀ tr e, runDispatch env cli.command = (tr, Dispatched.done (.error e)) →
      run env arg0 cli verbose_marker =
        (preEvents cli verbose_marker ++ tr ++ [Event.logError e], .error e)) ∧
    (∀ tr e, runDispatch env cli.command = (tr, Dispatched.early e) →
      run env arg0 cli verbose_marker =
        (preEvents cli verbose_marker ++ tr, .error e) ∧
      noLogError (run env arg0 cli verbose_marker).1 = true) := by
  constructor
  · intro tr e hd
    simp [run, h0, hd]
  · intro tr e hd
    have hrun : run env arg0 cli verbose_marker =
        (preEvents cli verbose_marker ++ tr, .error e) := by
      simp [run, h0, hd]
    refine ⟨hrun, ?_⟩
    have hdisp := runDispatch_no_housekeeping env cli.command
    rw [hd] at hdisp
    simp only [noLogError, List.all_eq_true, hrun]
    intro ev hev
    rcases List.mem_append.1 hev with hm | hm
    · rcases preEvents_mem cli verbose_marker ev hm with h2 | h2 <;> subst h2 <;> rfl
    · have h3 := isLogError_eq_false_of_not_housekeeping ev (hdisp ev hm)
      simp [h3]

theorem c3_error_logging_witness :
    run pfdFailEnv "ksud" ⟨Commands.PostFsData, true⟩ false =
      (preEvents ⟨Commands.PostFsData, true⟩ false ++ [Event.onPostDataFs] ++
        [Event.logError "boom"], .error "boom") :=
  (c3_error_logging pfdFailEnv "ksud" ⟨Commands.PostFsData, true⟩ false rfl).1
    [Event.onPostDataFs] "boom" rfl

/-- C4: if `switch_mnt_ns(1)` fails, or it succeeds and `unshare_mnt_ns`
fails, then no module operation is invoked at all (the trace contains no
module-registry call) and `run` returns the namespace error itself. -/
theorem c4_ns_failure_aborts (env : Env) (c : Module) (e : Err)
    (h : env.switch_mnt_ns 1 = .error e ∨
      (env.switch_mnt_ns 1 = .ok () ∧ env.unshare_mnt_ns = .error e))
    (arg0 : String) (cli : Args) (verbose_marker : Bool)
    (h0 : isSuArg0 arg0 = false) (hc : cli.command = Commands.Module c) :
    (run env arg0 cli verbose_marker).2 = .error e ∧
    noModuleOp (run env arg0 cli verbose_marker).1 = true := by
  rcases h with hsw | ⟨hsw, hun⟩
  · have hrun : run env arg0 cli verbose_marker =
        (preEvents cli verbose_marker ++ [Event.switchMntNs 1], .error e) := by
      simp [run, h0, hc, runDispatch, hsw]
    rw [hrun]
    refine ⟨rfl, ?_⟩
    simp only [noModuleOp, List.all_eq_true]
    intro ev hev
    rcases List.mem_append.1 hev with hm | hm
    · rcases preEvents_mem cli verbose_marker ev hm with h2 | h2 <;> subst h2 <;> rfl
    · simp at hm; subst hm; rfl
  · have hrun : run env arg0 cli verbose_marker =
        (preEvents cli verbose_marker ++
          [Event.switchMntNs 1, Event.unshareMntNs], .error e) := by
      simp [run, h0, hc, runDispatch, hsw, hun]
    rw [hrun]
    refine ⟨rfl, ?_⟩
    simp only [noModuleOp, List.all_eq_true]
    intro ev hev
    rcases List.mem_append.1 hev with hm | hm
    · rcases preEvents_mem cli verbose_marker ev hm with h2 | h2 <;> subst h2 <;> rfl
    · simp at hm; rcases hm with h2 | h2 <;> subst h2 <;> rfl

theorem c4_ns_failure_aborts_witness :
    (run nsFailEnv "ksud" ⟨Commands.Module Module.List, true⟩ false).2 =
      .error "ns" ∧
    noModuleOp (run nsFailEnv "ksud" ⟨Commands.Module Module.List, true⟩
        false).1 = true :=
  c4_ns_failure_aborts nsFailEnv Module.List "ns" (Or.inl rfl) "ksud"
    ⟨Commands.Module Module.List, true⟩ false rfl rfl

/-- C8: only `Module` subcommands perform the mount-namespace
switch/unshare at dispatch: for every non-`Module` command (boot
checkpoints, `Sepolicy`, `Profile`, `Debug`), the whole trace of `run`
contains neither `switch_mnt_ns` nor `unshare_mnt_ns`. -/
theorem c8_no_mntns_outside_module (env : Env) (arg0 : String) (cli : Args)
    (verbose_marker : Bool) (h0 : isSuArg0 arg0 = false)
    (h1 : cli.command.isModuleCmd = false) :
    noMntNsOp (run env arg0 cli verbose_marker).1 = true := by
  rcases hd : runDispatch env cli.command with ⟨tr, d⟩
  have hdisp := runDispatch_no_mntNs_of_not_module env cli.command h1
  rw [hd] at hdisp
  simp only [noMntNsOp, List.all_eq_true]
  intro ev hev
  cases d with
  | early e =>
    have hrun : (run env arg0 cli verbose_marker).1 =
        preEvents cli verbose_marker ++ tr := by simp [run, h0, hd]
    rw [hrun] at hev
    rcases List.mem_append.1 hev with hm | hm
    · rcases preEvents_mem cli verbose_marker ev hm with h2 | h2 <;> subst h2 <;> rfl
    · simp [hdisp ev hm]
  | done r =>
    cases r with
    | error e =>
      have hrun : (run env arg0 cli verbose_marker).1 =
          preEvents cli verbose_marker ++ tr ++ [Event.logError e] := by
        simp [run, h0, hd]
      rw [hrun] at hev
      rcases List.mem_append.1 hev with hm | hm
      · rcases List.mem_append.1 hm with hm2 | hm2
        · rcases preEvents_mem cli verbose_marker ev hm2 with h2 | h2 <;>
            subst h2 <;> rfl
        · simp [hdisp ev hm2]
      · simp at hm; subst hm; rfl
    | ok u =>
      have hrun : (run env arg0 cli verbose_marker).1 =
          preEvents cli verbose_marker ++ tr := by simp [run, h0, hd]
      rw [hrun] at hev
      rcases List.mem_append.1 hev with hm | hm
      · rcases preEvents_mem cli verbose_marker ev hm with h2 | h2 <;> subst h2 <;> rfl
      · simp [hdisp ev hm]

theorem c8_no_mntns_outside_module_witness :
    noMntNsOp (run okEnv "ksud" ⟨Commands.PostFsData, true⟩ false).1 = true :=
  c8_no_mntns_outside_module okEnv "ksud" ⟨Commands.PostFsData, true⟩ false rfl rfl

/-- C10: the `--verbose` flag defaults to `cfg!(debug_assertions)`, and
on the normal (non-`su`) path `run` emits the
`log::set_max_level(LevelFilter::Info)` cap exactly when `verbose` is
false and the verbose-log marker file does not exist. -/
theorem c10_verbose_cap :
    (∀ debug_assertions : Bool, parsedVerbose none debug_assertions = debug_assertions) ∧
    (∀ (env : Env) (arg0 : String) (cli : Args) (verbose_marker : Bool),
      isSuArg0 arg0 = false →
      (Event.setMaxLevelInfo ∈ (run env arg0 cli verbose_marker).1 ↔
        (cli.verbose = false ∧ verbose_marker = false))) := by
  constructor
  · intro d; rfl
  · intro env arg0 cli verbose_marker h0
    have hpre : Event.setMaxLevelInfo ∈ preEvents cli verbose_marker ↔
        (cli.verbose = false ∧ verbose_marker = false) := by
      cases hv : cli.verbose <;> cases hf : verbose_marker <;>
        simp [preEvents, hv, hf]
    rcases hd : runDispatch env cli.command with ⟨tr, d⟩
    have hdisp := runDispatch_no_housekeeping env cli.command
    rw [hd] at hdisp
    have hnot : Event.setMaxLevelInfo ∉ tr := by
      intro hm
      have h2 := hdisp _ hm
      simp [Event.isHousekeeping] at h2
    cases d with
    | early e =>
      have hrun : (run env arg0 cli verbose_marker).1 =
          preEvents cli verbose_marker ++ tr := by simp [run, h0, hd]
      rw [hrun, List.mem_append, or_iff_left hnot]
      exact hpre
    | done r =>
      cases r with
      | error e =>
        have hrun : (run env arg0 cli verbose_marker).1 =
            preEvents cli verbose_marker ++ tr ++ [Event.logError e] := by
          simp [run, h0, hd]
        rw [hrun]
        constructor
        · intro hm
          rcases List.mem_append.1 hm with hm2 | hm2
          · rcases List.mem_append.1 hm2 with hm3 | hm3
            · exact hpre.1 hm3
            · exact absurd hm3 hnot
          · simp at hm2
        · intro hrhs
          exact List.mem_append.2 (Or.inl (List.mem_append.2 (Or.inl (hpre.2 hrhs))))
      | ok u =>
        have hrun : (run env arg0 cli verbose_marker).1 =
            preEvents cli verbose_marker ++ tr := by simp [run, h0, hd]
        rw [hrun, List.mem_append, or_iff_left hnot]
        exact hpre

theorem c10_verbose_cap_witness :
    parsedVerbose none true = true ∧
    (Event.setMaxLevelInfo ∈
        (run okEnv "ksud" ⟨Commands.PostFsData, false⟩ false).1 ↔
      (false = false ∧ false = false)) :=
  ⟨c10_verbose_cap.1 true,
    c10_verbose_cap.2 okEnv "ksud" ⟨Commands.PostFsData, false⟩ false rfl⟩

end cli

namespace assets

/-- C9: `ensure_binaries` never calls `ensure_binary` for the asset named
`"ksuinit"` or for any asset whose name ends with `".ko"`; writing `kept`
for the other assets in iteration order, if every kept asset is present
and extracts, all of them are processed in order and the result is `Ok`;
otherwise processing stops at the first kept asset that is missing or
fails to extract (`ensure_binary` is still called for an extraction
failure but not for a missing asset), that asset's error is returned, and
the remaining assets are unprocessed. -/
theorem c9_ensure_binaries {Data : Type} (env : AssetsEnv Data) (ignore : Bool)
    (files : List String) :
    (∀ f ∈ (ensure_binaries env ignore files).1, skipAsset f = false) ∧
    ((files.filter (fun f => !skipAsset f)).find?
        (fun f => !assetOk env ignore f) = none →
      ensure_binaries env ignore files =
        (files.filter (fun f => !skipAsset f), .ok ())) ∧
    (∀ f, (files.filter (fun f => !skipAsset f)).find?
        (fun f => !assetOk env ignore f) = some f →
      ensure_binaries env ignore files =
        ((files.filter (fun f => !skipAsset f)).takeWhile (assetOk env ignore) ++
          assetCalled env f, .error (assetErr env ignore f))) := by
  induction files with
  | nil =>
    refine ⟨?_, ?_, ?_⟩
    · intro f hf
      simp [ensure_binaries] at hf
    · intro _
      simp [ensure_binaries]
    · intro f hf
      simp at hf
  | cons file rest ih =>
    obtain ⟨ih1, ih2, ih3⟩ := ih
    cases hskip : skipAsset file with
    | true =>
      have h1 : ensure_binaries env ignore (file :: rest) =
          ensure_binaries env ignore rest := by
        simp [ensure_binaries, hskip]
      have h2 : (file :: rest).filter (fun f => !skipAsset f) =
          rest.filter (fun f => !skipAsset f) := by
        simp [hskip]
      rw [h1, h2]
      exact ⟨ih1, ih2, ih3⟩
    | false =>
      have hfil : (file :: rest).filter (fun f => !skipAsset f) =
          file :: rest.filter (fun f => !skipAsset f) := by
        simp [hskip]
      cases hg : env.get file with
      | none =>
        have hens : ensure_binaries env ignore (file :: rest) =
            ([], .error ("asset not found: " ++ file)) := by
          simp [ensure_binaries, hskip, hg]
        have hbad : assetOk env ignore file = false := by
          simp [assetOk, hg]
        have hfind : (file :: rest.filter (fun f => !skipAsset f)).find?
            (fun f => !assetOk env ignore f) = some file := by
          simp [hbad]
        refine ⟨?_, ?_, ?_⟩
        · intro f hf
          rw [hens] at hf
          simp at hf
        · intro hnone
          rw [hfil, hfind] at hnone
          simp at hnone
        · intro f hf
          rw [hfil, hfind] at hf
          injection hf with hf'
          subst hf'
          rw [hens, hfil]
          simp [List.takeWhile_cons_of_neg, hbad, assetCalled, assetErr, hg]
      | some asset =>
        cases he : env.ensure_binary (env.binary_dir ++ file) asset ignore with
        | error e =>
          have hens : ensure_binaries env ignore (file :: rest) =
              ([file], .error e) := by
            simp [ensure_binaries, hskip, hg, he]
          have hbad : assetOk env ignore file = false := by
            simp [assetOk, hg, he]
          have hfind : (file :: rest.filter (fun f => !skipAsset f)).find?
              (fun f => !assetOk env ignore f) = some file := by
            simp [hbad]
          refine ⟨?_, ?_, ?_⟩
          · intro f hf
            rw [hens] at hf
            simp at hf
            subst hf
            exact hskip
          · intro hnone
            rw [hfil, hfind] at hnone
            simp at hnone
          · intro f hf
            rw [hfil, hfind] at hf
            injection hf with hf'
            subst hf'
            rw [hens, hfil]
            simp [hbad, assetCalled, assetErr, hg, he]
        | ok u =>
          have hokf : assetOk env ignore file = true := by
            simp [assetOk, hg, he]
          have hens : ensure_binaries env ignore (file :: rest) =
              (file :: (ensure_binaries env ignore rest).1,
                (ensure_binaries env ignore rest).2) := by
            simp [ensure_binaries, hskip, hg, he]
          have heq : (file :: rest.filter (fun f => !skipAsset f)).find?
              (fun f => !assetOk env ignore f) =
              (rest.filter (fun f => !skipAsset f)).find?
                (fun f => !assetOk env ignore f) := by
            simp [hokf]
          refine ⟨?_, ?_, ?_⟩
          · intro f hf
            rw [hens] at hf
            rcases List.mem_cons.1 hf with h2 | h2
            · subst h2
              exact hskip
            · exact ih1 f h2
          · intro hnone
            rw [hfil, heq] at hnone
            have h3 := ih2 hnone
            rw [hens, h3, hfil]
          · intro f hf
            rw [hfil, heq] at hf
            have h3 := ih3 f hf
            rw [hens, h3, hfil]
            simp [hokf]

theorem c9_ensure_binaries_witness :
    ensure_binaries sampleAssets false
        ["ksuinit", "foo.ko", "busybox", "resetprop"] =
      (["busybox", "resetprop"], .ok ()) := by
  have h2 := (c9_ensure_binaries sampleAssets false
    ["ksuinit", "foo.ko", "busybox", "resetprop"]).2.1 (by decide)
  have h3 : List.filter (fun f => !skipAsset f)
      ["ksuinit", "foo.ko", "busybox", "resetprop"] = ["busybox", "resetprop"] := by
    decide
  rw [h3] at h2
  exact h2

end assets

end Ksud
